import Mathlib

/-!
Verification of the batch comment-analysis pipeline of the CommentAnalyzer
repository.  The Python sources (`app/services/analysis_service.py`,
`app/main.py`, `llm_analyzer.py`, `app/models.py`) are shallowly embedded:
pure Python functions become Lean functions, numbers become exact rationals
(`ℚ` models Python floats), dictionaries with possibly-missing keys become
records of `Option` fields, a raised exception becomes the `Except.error`
branch, and genuinely external collaborators (TextBlob polarity, the sklearn
TF-IDF vectorizer, the YouTube fetcher, `json.loads`, the `re` engine on the
LLM side, `langdetect`, the HTTP client) are parameters of the embedded
functions.  Character classes `\w`/`\s` and `str.lower` are modelled at the
ASCII level, which is the fragment the repository's fixed keyword lists and
patterns use.
-/

namespace CommentAnalyzer

/-! ## Character and string primitives (Python `str` / `re` fragments) -/

/-- Python `\w` (ASCII fragment): letters, digits, underscore. -/
def isWordChar (c : Char) : Bool :=
  c.isAlphanum || c = '_'

/-- Python `\s`: the whitespace class `[ \t\n\r\f\v]`. -/
def isSpaceChar (c : Char) : Bool :=
  c = ' ' || c = '\t' || c = '\n' || c = '\r' || c = '\x0c' || c = '\x0b'

/-- `leadsWith n l` : `n` is an initial segment of `l`. -/
def leadsWith : List Char → List Char → Bool
  | [], _ => true
  | _ :: _, [] => false
  | a :: as, b :: bs => a = b && leadsWith as bs

/-- Substring containment, modelling Python's `needle in hay`. -/
def containsSub (needle : List Char) : List Char → Bool
  | [] => needle.isEmpty
  | c :: t => leadsWith needle (c :: t) || containsSub needle t

/-- Accumulate maximal non-whitespace runs, modelling Python `str.split()`. -/
def wordsAux : List Char → List Char → List String
  | [], cur => if cur.isEmpty then [] else [String.mk cur.reverse]
  | c :: t, cur =>
    if isSpaceChar c then
      if cur.isEmpty then wordsAux t [] else String.mk cur.reverse :: wordsAux t []
    else wordsAux t (c :: cur)

/-- Python `text.split()` (split on whitespace runs, no empty parts). -/
def pySplit (s : String) : List String := wordsAux s.toList []

/-- Python `' '.join(text.split())`: collapse whitespace runs to single
spaces and strip the ends. -/
def collapseWords (l : List Char) : String :=
  " ".intercalate (wordsAux l [])

/-- Python `s.split("\n")`: split at every single newline, keeping empty
pieces. -/
def splitNLAux : List Char → List Char → List String
  | [], cur => [String.mk cur.reverse]
  | c :: t, cur =>
    if c = '\n' then String.mk cur.reverse :: splitNLAux t []
    else splitNLAux t (c :: cur)

def splitNL (s : String) : List String := splitNLAux s.toList []

/-- Python `str.strip()` (strip `\s` from both ends). -/
def pyStrip (s : String) : String :=
  String.mk (((s.toList.dropWhile isSpaceChar).reverse.dropWhile isSpaceChar).reverse)

/-- Python `s[:n]` on our rational-free strings (`String.take` is by
characters, as Python slicing is). -/
def pyTake (s : String) (n : Nat) : String := String.mk (s.toList.take n)

/-- Replacement of every character matching `[^\w\s]` by a space
(`re.sub(r'[^\w\s]', ' ', s)` applied characterwise). -/
def punctToSpace (c : Char) : Char :=
  if isWordChar c || isSpaceChar c then c else ' '

/-! ## Data model (`app/models.py`) -/

/-- `app/models.py` `Comment`; the analysis pipeline constructs it with the
default `replyCount = 0`. -/
structure Comment where
  text : String
  sentiment : String
  author : String
  likeCount : Int
  replyCount : Int
  deriving Repr, DecidableEq

/-- `app/models.py` `SentimentSummary`; Python floats are modelled as exact
rationals. -/
structure SentimentSummary where
  positive : ℚ
  neutral : ℚ
  negative : ℚ
  deriving Repr, DecidableEq

/-- `app/models.py` `VideoAnalysis`. -/
structure VideoAnalysis where
  videoId : String
  title : String
  channelName : String
  thumbnailUrl : String
  publishedAt : String
  viewCount : Int
  commentCount : Nat
  sentimentSummary : SentimentSummary
  topKeywords : List String
  pros : List String
  cons : List String
  nextTopicIdeas : List String
  comments : List Comment
  deriving Repr, DecidableEq

/-- `app/models.py` `BatchAnalysisResponse`. -/
structure BatchAnalysisResponse where
  videos : List VideoAnalysis
  total_processed : Nat
  successful_analyses : Nat
  failed_analyses : Nat
  processing_time_seconds : ℚ
  deriving Repr, DecidableEq

/-- A video descriptor as produced by `youtube_service.search_videos`
(`{videoId, title, channelName, thumbnailUrl, publishedAt, viewCount}`). -/
structure Video where
  videoId : String
  title : String
  channelName : String
  thumbnailUrl : String
  publishedAt : String
  viewCount : Int
  deriving Repr, DecidableEq

/-- A raw comment dictionary handed to the analysis service; `Option` models
a possibly missing dictionary key (`comment["text"]` raises `KeyError` when
absent, `comment.get(k, d)` defaults). -/
structure CommentData where
  text : Option String
  author : Option String
  likeCount : Option Int
  replyCount : Option Int
  deriving Repr, DecidableEq

/-- Python `d["k"]` on an optional field: the value, or a raised `KeyError`. -/
def keyErr {α : Type} (o : Option α) (k : String) : Except String α :=
  match o with
  | some v => Except.ok v
  | none => Except.error ("KeyError: " ++ k)

/-! ## Python `round` and the 3-decimal summary rounding -/

/-- Python's banker's rounding `round(q)`: nearest integer, ties to even. -/
def pyRound (q : ℚ) : ℤ :=
  if q - ⌊q⌋ < 1/2 then ⌊q⌋
  else if 1/2 < q - ⌊q⌋ then ⌊q⌋ + 1
  else if ⌊q⌋ % 2 = 0 then ⌊q⌋ else ⌊q⌋ + 1

/-- Python `round(q, 3)`. -/
def round3 (q : ℚ) : ℚ := (pyRound (1000 * q) : ℚ) / 1000

/-- Python `round(q, 2)` (used for `processing_time_seconds`). -/
def round2 (q : ℚ) : ℚ := (pyRound (100 * q) : ℚ) / 100

/-! ## Sentiment classifier (`AnalysisService._analyze_sentiment`) -/

/-- `AnalysisService._analyze_sentiment`.  `polarity` is the external
TextBlob polarity computation; `none` models any internal exception, which
the bare `except:` turns into `"neutral"`. -/
def analyze_sentiment (polarity : String → Option ℚ) (text : String) : String :=
  match polarity text with
  | none => "neutral"
  | some p =>
    if p > 1/10 then "positive"
    else if p < -1/10 then "negative"
    else "neutral"

/-! ## Sentiment summary (`AnalysisService._calculate_sentiment_summary`) -/

/-- `AnalysisService._calculate_sentiment_summary`. -/
def calculate_sentiment_summary (sentiments : List String) : SentimentSummary :=
  if sentiments.isEmpty then ⟨0, 1, 0⟩
  else
    { positive := round3 ((sentiments.count "positive" : ℚ) / (sentiments.length : ℚ))
      neutral := round3 ((sentiments.count "neutral" : ℚ) / (sentiments.length : ℚ))
      negative := round3 ((sentiments.count "negative" : ℚ) / (sentiments.length : ℚ)) }

/-! ## Keyword extraction (`AnalysisService._extract_keywords`) -/

/-- The `AnalysisService.__init__` stop-word set (membership only). -/
def stopWords : List String :=
  ["the", "a", "an", "and", "or", "but", "in", "on", "at", "to", "for", "of", "with",
   "by", "from", "up", "about", "into", "through", "during", "before", "after",
   "above", "below", "between", "among", "this", "that", "these", "those", "i", "me",
   "my", "myself", "we", "our", "ours", "ourselves", "you", "your", "yours",
   "yourself", "yourselves", "he", "him", "his", "himself", "she", "her", "hers",
   "herself", "it", "its", "itself", "they", "them", "their", "theirs", "themselves",
   "what", "which", "who", "whom", "am", "is", "are",
   "was", "were", "be", "been", "being", "have", "has", "had", "having", "do", "does",
   "did", "doing", "will", "would", "should", "could", "can", "may", "might", "must",
   "shall", "video", "youtube", "channel", "like", "subscribe", "comment", "watch"]

/-- One pass of `re.sub(r'http\S+|@\w+|[^\w\s]', ' ', text)`: at each
position the alternation tries `http\S+`, then `@\w+`, then a single
non-word non-space character; each match is replaced by one space.  `fuel`
bounds the recursion (every step consumes at least one character). -/
def scrub : Nat → List Char → List Char
  | 0, _ => []
  | _, [] => []
  | fuel + 1, c :: t =>
    if leadsWith ['h', 't', 't', 'p'] (c :: t) &&
        (match (c :: t).drop 4 with
         | x :: _ => !(isSpaceChar x)
         | [] => false) then
      ' ' :: scrub fuel (((c :: t).drop 4).dropWhile (fun x => !(isSpaceChar x)))
    else if c = '@' &&
        (match t with
         | x :: _ => isWordChar x
         | [] => false) then
      ' ' :: scrub fuel (t.dropWhile isWordChar)
    else if !(isWordChar c) && !(isSpaceChar c) then
      ' ' :: scrub fuel t
    else
      c :: scrub fuel t

/-- The per-text cleaning of `_extract_keywords`: lowercase, strip
URLs/mentions/punctuation, collapse whitespace. -/
def cleanCommentText (s : String) : String :=
  collapseWords (scrub (s.length + 1) (s.toList.map Char.toLower))

/-- The keyword-accumulation loop of `_extract_keywords` (filter stop words
and short candidates, stop once 10 keywords are collected). -/
def keywordsLoop : List String → List String → List String
  | [], acc => acc
  | k :: rest, acc =>
    let acc' := if k ∉ stopWords ∧ 2 < k.length then acc ++ [k] else acc
    if 10 ≤ acc'.length then acc' else keywordsLoop rest acc'

/-- `AnalysisService._extract_keywords`.  `tfidf` is the external sklearn
`TfidfVectorizer` pipeline: it receives the cleaned texts and returns the
candidate terms sorted by decreasing mean TF-IDF score; `none` models the
vectorizer raising (e.g. empty vocabulary with `min_df=2`), which the
`except` turns into `[]`. -/
def extract_keywords (tfidf : List String → Option (List String))
    (comment_texts : List String) : List String :=
  if comment_texts.isEmpty then []
  else if ((comment_texts.map cleanCommentText).filter (fun s => s ≠ "")).isEmpty then []
  else
    match tfidf ((comment_texts.map cleanCommentText).filter (fun s => s ≠ "")) with
    | none => []
    | some candidates => (keywordsLoop candidates []).take 10

/-! ## Theme mining (`_identify_pros_cons`, `_extract_common_themes`,
`_extract_context`) -/

def positiveKeywords : List String :=
  ["great", "amazing", "excellent", "fantastic", "awesome", "perfect", "love",
   "helpful", "useful", "clear", "easy", "understand", "good", "best",
   "informative", "detailed", "comprehensive", "thorough"]

def negativeKeywords : List String :=
  ["bad", "terrible", "awful", "hate", "confusing", "unclear", "difficult",
   "hard", "boring", "slow", "fast", "short", "long", "missing", "wrong",
   "error", "mistake", "problem", "issue"]

/-- `re.split(r'[.!?]+', comment)`: split on maximal runs of sentence
punctuation (adjacent separators produce no interior empty piece, but
leading/trailing runs do produce empty pieces, as in Python). -/
def splitSentAux : List Char → List Char → Bool → List (List Char)
  | [], cur, inRun => if inRun then [[]] else [cur.reverse]
  | c :: t, cur, inRun =>
    if inRun then
      if c = '.' || c = '!' || c = '?' then splitSentAux t [] true
      else splitSentAux t [c] false
    else
      if c = '.' || c = '!' || c = '?' then cur.reverse :: splitSentAux t [] true
      else splitSentAux t (c :: cur) false

def splitSentences (s : String) : List (List Char) :=
  splitSentAux s.toList [] false

/-- The sentence scan of `AnalysisService._extract_context`. -/
def contextGo (keyword : List Char) : List (List Char) → String
  | [] => ""
  | s :: rest =>
    if containsSub keyword (s.map Char.toLower) then
      let cleaned := collapseWords (s.map punctToSpace)
      if 10 < cleaned.length ∧ cleaned.length < 100 then cleaned
      else contextGo keyword rest
    else contextGo keyword rest

/-- `AnalysisService._extract_context`. -/
def extract_context (comment keyword : String) : String :=
  contextGo (keyword.toList.map Char.toLower) (splitSentences comment)

/-- The inner keyword loop of `_extract_common_themes` (breaks as soon as a
5th theme is appended). -/
def themesInner (c : String) : List String → List String → List String
  | [], acc => acc
  | k :: ks, acc =>
    if containsSub k.toList (c.toList.map Char.toLower) then
      let ctx := extract_context c k
      if ctx ≠ "" ∧ ctx ∉ acc then
        let acc' := acc ++ [ctx]
        if 5 ≤ acc'.length then acc' else themesInner c ks acc'
      else themesInner c ks acc
    else themesInner c ks acc

/-- The outer comment loop of `_extract_common_themes`. -/
def themesOuter (kws : List String) : List String → List String → List String
  | [], acc => acc
  | c :: rest, acc =>
    let acc' := themesInner c kws acc
    if 5 ≤ acc'.length then acc' else themesOuter kws rest acc'

/-- `AnalysisService._extract_common_themes`. -/
def extract_common_themes (comments : List String) (isPositive : Bool) : List String :=
  if comments.isEmpty then []
  else
    themesOuter (if isPositive then positiveKeywords else negativeKeywords)
      (comments.take 20) []

/-- `AnalysisService._identify_pros_cons` (the comment texts are paired with
their already-computed sentiment labels). -/
def identify_pros_cons (texts sentiments : List String) : List String × List String :=
  let pairs := texts.zip sentiments
  let positive_comments := (pairs.filter (fun p => p.2 = "positive")).map (fun p => p.1)
  let negative_comments := (pairs.filter (fun p => p.2 = "negative")).map (fun p => p.1)
  ((extract_common_themes positive_comments true).take 5,
   (extract_common_themes negative_comments false).take 5)

/-! ## Next-topic mining (`AnalysisService._extract_next_topic_ideas`) -/

/-- The request-signalling phrases of `self.question_patterns` (each Python
pattern is `\b<phrase>\b`). -/
def questionPhrases : List String :=
  ["how to", "what about", "can you explain", "next video on", "please make",
   "do a video", "tutorial on", "show us", "teach us", "would love to see"]

/-- Word-boundary check before position `i` of `s`. -/
def boundaryBefore (s : List Char) (i : Nat) : Bool :=
  i = 0 || !(isWordChar (s.getD (i - 1) ' '))

/-- Word-boundary check at position `j` of `s`. -/
def boundaryAfter (s : List Char) (j : Nat) : Bool :=
  s.length ≤ j || !(isWordChar (s.getD j ' '))

/-- `re.finditer(r'\b<phrase>\b', s)`: the end positions of the
left-to-right non-overlapping matches, starting the scan at `i` (`fuel`
bounds the recursion; every step advances the position). -/
def findEndsFrom (phrase s : List Char) : Nat → Nat → List Nat
  | 0, _ => []
  | fuel + 1, i =>
    if s.length < i then []
    else if leadsWith phrase (s.drop i) && boundaryBefore s i &&
        boundaryAfter s (i + phrase.length) then
      (i + phrase.length) :: findEndsFrom phrase s fuel (i + phrase.length)
    else if i < s.length then findEndsFrom phrase s fuel (i + 1)
    else []

def findEnds (phrase s : List Char) : List Nat :=
  findEndsFrom phrase s (s.length + 1) 0

/-- Topic text after a match: up to 100 characters of the original comment,
punctuation replaced by spaces, whitespace collapsed. -/
def topicAt (orig : List Char) (e : Nat) : String :=
  collapseWords (((orig.drop e).take 100).map punctToSpace)

/-- The match loop of `_extract_next_topic_ideas` for one pattern (breaks
right after an append makes the list reach 4). -/
def topicMatchLoop (orig : List Char) : List Nat → List String → List String
  | [], acc => acc
  | e :: es, acc =>
    let topic := topicAt orig e
    if 5 < topic.length ∧ topic.length < 50 then
      let acc' := acc ++ [topic]
      if 4 ≤ acc'.length then acc' else topicMatchLoop orig es acc'
    else topicMatchLoop orig es acc

/-- All patterns applied to one comment (the per-pattern break does not
stop the pattern loop, exactly as in the source). -/
def topicsForComment (comment : String) (acc : List String) : List String :=
  questionPhrases.foldl
    (fun a phrase => topicMatchLoop comment.toList (findEnds phrase.toList (comment.toList.map Char.toLower)) a)
    acc

/-- The comment loop of `_extract_next_topic_ideas` (stops once 4 ideas
have been collected). -/
def topicGo : List String → List String → List String
  | [], acc => acc
  | c :: rest, acc =>
    let acc' := topicsForComment c acc
    if 4 ≤ acc'.length then acc' else topicGo rest acc'

/-- Python's order-preserving manual deduplication loop. -/
def uniquePreserve (l : List String) : List String :=
  l.foldl (fun acc t => if t ∈ acc then acc else acc ++ [t]) []

/-- `AnalysisService._extract_next_topic_ideas`. -/
def extract_next_topic_ideas (comment_texts : List String) : List String :=
  (uniquePreserve (topicGo comment_texts [])).take 4

/-! ## Per-video analysis (`AnalysisService.analyze_video_comments`) and the
terminal variants -/

/-- `AnalysisService._create_empty_analysis` (videos with no comments, and
the fallback of the per-video `except`). -/
def create_empty_analysis (video_data : Video) : VideoAnalysis :=
  { videoId := video_data.videoId
    title := video_data.title
    channelName := video_data.channelName
    thumbnailUrl := video_data.thumbnailUrl
    publishedAt := video_data.publishedAt
    viewCount := video_data.viewCount
    commentCount := 0
    sentimentSummary := ⟨0, 1, 0⟩
    topKeywords := []
    pros := []
    cons := []
    nextTopicIdeas := []
    comments := [] }

/-- `AnalysisService._create_error_analysis` (a well-formed descriptor makes
every `video_data.get(k, default)` return the actual field). -/
def create_error_analysis (video_data : Video) (error_message : String) : VideoAnalysis :=
  { videoId := video_data.videoId
    title := video_data.title
    channelName := video_data.channelName
    thumbnailUrl := video_data.thumbnailUrl
    publishedAt := video_data.publishedAt
    viewCount := video_data.viewCount
    commentCount := 0
    sentimentSummary := ⟨0, 1, 0⟩
    topKeywords := ["error: " ++ pyTake error_message 50]
    pros := []
    cons := []
    nextTopicIdeas := []
    comments := [] }

/-- One iteration of the sentiment loop of `analyze_video_comments`:
`comment_data["text"]`, classify, build the `Comment` record (`author` and
`likeCount` accessed with `[]`, `replyCount` defaulted by the model). -/
def analyzeComment (polarity : String → Option ℚ) (cd : CommentData) :
    Except String (String × Comment) :=
  match cd.text with
  | none => Except.error "KeyError: text"
  | some t =>
    let s := analyze_sentiment polarity t
    match cd.author with
    | none => Except.error "KeyError: author"
    | some a =>
      match cd.likeCount with
      | none => Except.error "KeyError: likeCount"
      | some lc =>
        Except.ok (s, { text := t, sentiment := s, author := a, likeCount := lc, replyCount := 0 })

/-- The `try` body of `AnalysisService.analyze_video_comments`; a raised
exception is the `error` branch. -/
def analyzeBody (polarity : String → Option ℚ) (tfidf : List String → Option (List String))
    (video_data : Video) (comments : List CommentData) : Except String VideoAnalysis :=
  if comments.isEmpty then Except.ok (create_empty_analysis video_data)
  else
    match comments.mapM (analyzeComment polarity) with
    | Except.error e => Except.error e
    | Except.ok pairs =>
      let sentiments := pairs.map (fun p => p.1)
      let analyzed_comments := pairs.map (fun p => p.2)
      let texts := analyzed_comments.map (fun c => c.text)
      let pc := identify_pros_cons texts sentiments
      Except.ok
        { videoId := video_data.videoId
          title := video_data.title
          channelName := video_data.channelName
          thumbnailUrl := video_data.thumbnailUrl
          publishedAt := video_data.publishedAt
          viewCount := video_data.viewCount
          commentCount := comments.length
          sentimentSummary := calculate_sentiment_summary sentiments
          topKeywords := extract_keywords tfidf texts
          pros := pc.1
          cons := pc.2
          nextTopicIdeas := extract_next_topic_ideas texts
          comments := analyzed_comments }

/-- `AnalysisService.analyze_video_comments`: the surrounding
`try/except` returns the empty analysis on any internal failure. -/
def analyze_video_comments (polarity : String → Option ℚ)
    (tfidf : List String → Option (List String))
    (video_data : Video) (comments : List CommentData) : VideoAnalysis :=
  match analyzeBody polarity tfidf video_data comments with
  | Except.ok a => a
  | Except.error _ => create_empty_analysis video_data

/-! ## Engagement enhancement (`AnalysisService._enhance_with_batch_metrics`) -/

/-- `AnalysisService._enhance_with_batch_metrics`.  `setOrder` models the
iteration order of Python's `list(set(...))`, which depends on the
interpreter's string-hash seed; it receives `topKeywords ++ engagement
keywords` and returns that set in some order. -/
def enhance_with_batch_metrics (setOrder : List String → List String)
    (analysis : VideoAnalysis) (comments : List CommentData) : VideoAnalysis :=
  if comments.isEmpty then analysis
  else
    let total_likes : ℚ := ((comments.map (fun c => c.likeCount.getD 0)).sum : ℤ)
    let avg_likes : ℚ := total_likes / (comments.length : ℚ)
    let total_replies : ℚ := ((comments.map (fun c => c.replyCount.getD 0)).sum : ℤ)
    let avg_replies : ℚ := total_replies / (comments.length : ℚ)
    let engagement_keywords : List String :=
      (if avg_likes > 10 then ["high engagement"] else []) ++
      (if avg_replies > 2 then ["active discussion"] else []) ++
      (if 5 < (comments.filter (fun c => c.likeCount.getD 0 > 50)).length
        then ["viral comments"] else [])
    { analysis with
        topKeywords := (setOrder (analysis.topKeywords ++ engagement_keywords)).take 10 }

/-! ## Batch orchestrator (`AnalysisService.analyze_videos_batch`) -/

/-- `AnalysisService.analyze_videos_batch`.  `fetch` is the external
`youtube_service.get_video_comments` collaborator; `Except.error e` models
any exception raised while processing a video, which the per-video
`except` turns into an error analysis before continuing.  Progress
callbacks and the pacing sleep do not affect the returned list. -/
def analyze_videos_batch (polarity : String → Option ℚ)
    (tfidf : List String → Option (List String))
    (setOrder : List String → List String)
    (fetch : Video → Except String (List CommentData))
    (videos : List Video) : List VideoAnalysis :=
  videos.map (fun video =>
    match fetch video with
    | Except.error e => create_error_analysis video e
    | Except.ok comments =>
      enhance_with_batch_metrics setOrder
        (analyze_video_comments polarity tfidf video comments) comments)

/-! ## Endpoint aggregation (`app/main.py`) -/

/-- The success test of the synchronous endpoint
(`r.commentCount > 0 or len(r.topKeywords) > 0`). -/
def syncSuccess (r : VideoAnalysis) : Bool :=
  (0 < r.commentCount) || (0 < r.topKeywords.length)

/-- The success test of the streaming endpoint's final aggregate
(`r.commentCount > 0` only). -/
def streamSuccess (r : VideoAnalysis) : Bool :=
  0 < r.commentCount

/-- The `BatchAnalysisResponse` built by `analyze_youtube_comments`
(`app/main.py`, synchronous endpoint); `processing_time` is the elapsed
wall-clock time. -/
def analyze_youtube_comments_response (results : List VideoAnalysis)
    (processing_time : ℚ) : BatchAnalysisResponse :=
  { videos := results
    total_processed := results.length
    successful_analyses := (results.filter syncSuccess).length
    failed_analyses := results.length - (results.filter syncSuccess).length
    processing_time_seconds := round2 processing_time }

/-- The final `BatchAnalysisResponse` of `analyze_youtube_comments_stream`
(`app/main.py`, streaming endpoint; `processing_time_seconds` is hardcoded
to 0 there). -/
def stream_final_response (results : List VideoAnalysis) : BatchAnalysisResponse :=
  { videos := results
    total_processed := results.length
    successful_analyses := (results.filter streamSuccess).length
    failed_analyses := results.length - (results.filter streamSuccess).length
    processing_time_seconds := 0 }

end CommentAnalyzer

/-! ## LLM fallback chain (`llm_analyzer.py`) -/

namespace LlmAnalyzer

open CommentAnalyzer

/-- The video record consumed by `llm_analyzer.analyze_video_comments`. -/
structure LLMVideo where
  video_id : String
  video_title : String
  channelTitle : String
  thumbnail_url : String
  publishTime : String
  deriving Repr, DecidableEq

/-- The record returned by `llm_analyzer.analyze_video_comments`
(`base_response`, possibly updated with the extracted sections and/or a
`reason`). -/
structure LLMResult where
  video_id : String
  video_title : String
  channelTitle : String
  thumbnail_url : String
  publishTime : String
  pros : String
  cons : String
  next_hot_topic : String
  comments_fetched : Nat
  comments_sanitized : Nat
  reason : Option String
  deriving Repr, DecidableEq

/-- The three strings returned by `extract_sections_from_text`. -/
structure Sections where
  pros : String
  cons : String
  next_hot_topic : String
  deriving Repr, DecidableEq

/-- The outcome of one `requests.post` call to a model: an HTTP response
(for status 200 `content` is the extracted message text) or a raised
exception (network failure, or a malformed 200 body whose
`json()["choices"][0]["message"]["content"]` access raises). -/
inductive CallOutcome where
  | response (status : Nat) (content : String)
  | exception (msg : String)
  deriving Repr, DecidableEq

/-- `llm_analyzer.remove_emoji`: drop the characters of the three
codepoint ranges of the pattern. -/
def remove_emoji (l : List Char) : List Char :=
  l.filter (fun c =>
    !((0x10000 ≤ c.toNat && c.toNat ≤ 0x10FFFF) ||
      (0x2600 ≤ c.toNat && c.toNat ≤ 0x26FF) ||
      (0x2700 ≤ c.toNat && c.toNat ≤ 0x27BF)))

/-- `llm_analyzer.simple_text`: remove emoji, collapse `\s+` runs to single
spaces, strip. -/
def simple_text (s : String) : String :=
  collapseWords (remove_emoji s.toList)

/-- The sanitization loop of `llm_analyzer.analyze_video_comments`:
clean, drop empties/duplicates/non-English, drop comments longer than 100
words.  `isEnglish` is the external `langdetect` heuristic (its own
`except` already makes it total). -/
def sanitizeComments (isEnglish : String → Bool) (comments : List String) : List String :=
  comments.foldl
    (fun acc c =>
      let c_clean := simple_text c
      if c_clean ≠ "" ∧ c_clean ∉ acc ∧ isEnglish c_clean = true ∧
          (pySplit c_clean).length ≤ 100 then
        acc ++ [c_clean]
      else acc)
    []

def openrouter_models : List String :=
  ["mistralai/mistral-7b-instruct",
   "openchat/openchat-3.5-0106",
   "huggingfaceh4/zephyr-7b-alpha",
   "meta-llama/llama-2-7b-chat",
   "google/gemma-7b-it",
   "nousresearch/nous-capybara-7b",
   "gryphe/mythomist-7b",
   "openrouter/cinematika-7b-v2"]

/-- `llm_analyzer.build_prompt`. -/
def build_prompt (video : LLMVideo) (comments : List String) : String :=
  let comments_str := "\n- ".intercalate (comments.take 50)
  "You are a YouTube comment analyzer. Analyze the following comments and provide insights.\n\n" ++
  "Video Title: " ++ video.video_title ++ "\n" ++
  "Channel: " ++ video.channelTitle ++ "\n" ++
  "Comments:\n" ++ comments_str ++ "\n\n" ++
  "Analyze the comments and provide a response in this EXACT format:\n\n" ++
  "PROS:\n" ++
  "- List positive aspects mentioned by viewers\n" ++
  "- Focus on content quality, presentation, accuracy\n\n" ++
  "CONS:\n" ++
  "- List criticisms and areas for improvement\n" ++
  "- Focus on specific issues mentioned\n" ++
  "- Do NOT include topic suggestions or requests for future videos here.\n" ++
  "- If a viewer suggests a new topic, do NOT list it as a con.\n\n" ++
  "NEXT HOT TOPIC:\n" ++
  "- List 2-3 specific topics viewers want to see next\n" ++
  "- Base these on questions and interests in comments\n" ++
  "- Do NOT repeat cons. Only include new topic ideas here.\n\n" ++
  "Keep each section concise with clear bullet points. No explanations needed."

/-- The `base_response` dictionary. -/
def baseResponse (video : LLMVideo) (comments_fetched comments_sanitized : Nat) : LLMResult :=
  { video_id := video.video_id
    video_title := video.video_title
    channelTitle := video.channelTitle
    thumbnail_url := video.thumbnail_url
    publishTime := video.publishTime
    pros := ""
    cons := ""
    next_hot_topic := ""
    comments_fetched := comments_fetched
    comments_sanitized := comments_sanitized
    reason := none }

/-- The model loop of `llm_analyzer.analyze_video_comments`: one request
per model in list order; empty content or all-empty sections → next model;
HTTP 429/403 → next model; any other non-200 → `break` (which reaches the
trailing total-failure return); exception → next model.  Exhaustion sets
the `reason` on the base response. -/
def tryModels (call : String → CallOutcome) (extract : String → Sections)
    (base : LLMResult) : List String → LLMResult
  | [] => { base with reason := some "LLM analysis failed for all models." }
  | m :: rest =>
    match call m with
    | CallOutcome.exception _ => tryModels call extract base rest
    | CallOutcome.response status content =>
      if status = 200 then
        if content = "" ∨ pyStrip content = "" then tryModels call extract base rest
        else
          let result := extract content
          if result.pros = "" ∧ result.cons = "" ∧ result.next_hot_topic = "" then
            tryModels call extract base rest
          else
            { base with
                pros := result.pros
                cons := result.cons
                next_hot_topic := result.next_hot_topic }
      else if status = 429 ∨ status = 403 then tryModels call extract base rest
      else { base with reason := some "LLM analysis failed for all models." }

/-- `llm_analyzer.analyze_video_comments`.  `call model prompt` is the
external HTTP request; `extract` is `extract_sections_from_text`
(instantiated below once its own external pieces are fixed). -/
def analyze_video_comments (call : String → String → CallOutcome)
    (extract : String → Sections) (isEnglish : String → Bool)
    (video : LLMVideo) (comments : List String) : LLMResult :=
  let sanitized := sanitizeComments isEnglish comments
  let base := baseResponse video comments.length sanitized.length
  if sanitized.isEmpty then
    { base with
        reason := some (if 0 < comments.length then "No valid comments found after filtering."
                        else "No comments fetched from API.") }
  else
    tryModels (fun m => call m (build_prompt video sanitized)) extract base openrouter_models

/-! ### Section extraction (`llm_analyzer.extract_sections_from_text`) -/

/-- A JSON value that `result.get(key, [])` hands to the normalization code:
a string or a list of strings. -/
inductive StrOrList where
  | str (s : String)
  | list (l : List String)
  deriving Repr, DecidableEq

/-- `isinstance(x, str)` normalization: a bare string becomes `[x]`. -/
def toStrList : StrOrList → List String
  | StrOrList.str s => [s]
  | StrOrList.list l => l

/-- The three `result.get(..., [])` values of a successfully parsed JSON
object. -/
structure JsonSections where
  pros : StrOrList
  cons : StrOrList
  next_hot_topic : StrOrList
  deriving Repr, DecidableEq

/-- The JSON-path overlap removal:
`[c for c in cons if c.strip() and c.strip() not in next_hot_topic]`. -/
def json_cons_clean (cons next_hot_topic : List String) : List String :=
  cons.filter (fun c => pyStrip c ≠ "" ∧ pyStrip c ∉ next_hot_topic)

/-- The regex-path overlap removal:
`[c for c in cons_list if c and c not in next_list]`. -/
def regex_cons_clean (cons_list next_list : List String) : List String :=
  cons_list.filter (fun c => c ≠ "" ∧ c ∉ next_list)

/-- `text[text.find('{'):text.rfind('}')+1]`. -/
def jsonSlice (text : String) : String :=
  let l := text.toList
  let i := l.findIdx (fun c => c = '{')
  let j := l.length - 1 - (l.reverse.findIdx (fun c => c = '}'))
  String.mk ((l.drop i).take (j + 1 - i))

/-- `llm_analyzer.extract_bullet_points`; `findBullets` is the external
`re.findall(r'(?:^|\n)[•\-\*]\s*([^\n]+)', ...)` call returning the raw
captures. -/
def extract_bullet_points (findBullets : String → List String)
    (section_text : String) : List String :=
  if section_text = "" then []
  else
    match findBullets section_text with
    | [] => [pyStrip section_text]
    | pts => pts.map pyStrip

/-- The regex fallback path of `extract_sections_from_text`; `secSearch`
is the external triple of `re.search` calls for the PROS / CONS /
NEXT HOT TOPIC headers (each `Option String` is `match.group(1)`). -/
def regexSections (secSearch : String → Option String × Option String × Option String)
    (findBullets : String → List String) (text : String) : Sections :=
  let m := secSearch text
  let pros_list := match m.1 with
    | some g => extract_bullet_points findBullets g
    | none => []
  let cons_list := match m.2.1 with
    | some g => extract_bullet_points findBullets g
    | none => []
  let next_list := match m.2.2 with
    | some g => extract_bullet_points findBullets g
    | none => []
  let cons_clean := regex_cons_clean cons_list next_list
  let next_clean := next_list.filter (fun n => n ≠ "")
  { pros := "\n".intercalate (pros_list.filter (fun p => p ≠ ""))
    cons := "\n".intercalate cons_clean
    next_hot_topic := "\n".intercalate next_clean }

/-- `llm_analyzer.extract_sections_from_text`; `jsonParse` is the external
`json.loads` (`none` models a `JSONDecodeError`, which falls through to the
regex path). -/
def extract_sections_from_text (jsonParse : String → Option JsonSections)
    (secSearch : String → Option String × Option String × Option String)
    (findBullets : String → List String) (text : String) : Sections :=
  if text.toList.contains '{' && text.toList.contains '}' then
    match jsonParse (jsonSlice text) with
    | some result =>
      let pros := toStrList result.pros
      let cons := toStrList result.cons
      let next_hot_topic := toStrList result.next_hot_topic
      let cons_clean := json_cons_clean cons next_hot_topic
      let next_clean := next_hot_topic.filter (fun n => pyStrip n ≠ "")
      { pros := "\n".intercalate ((pros.filter (fun p => pyStrip p ≠ "")).map pyStrip)
        cons := "\n".intercalate cons_clean
        next_hot_topic := "\n".intercalate next_clean }
    | none => regexSections secSearch findBullets text
  else regexSections secSearch findBullets text

/-- One model attempt fails to produce a usable answer: the call raises, or
returns a non-200 status, or returns 200 with empty content, or returns 200
whose extracted sections are all empty. -/
def attemptFails (call : String → CallOutcome) (extract : String → Sections)
    (m : String) : Bool :=
  match call m with
  | CallOutcome.exception _ => true
  | CallOutcome.response s c =>
    (s != 200) || (c == "") || (pyStrip c == "") ||
    ((extract c).pros == "" && (extract c).cons == "" && (extract c).next_hot_topic == "")

/-! ### Concrete fixtures for the LLM chain -/

/-- A well-formed LLM video record. -/
def fxVid : LLMVideo := ⟨"v1", "T", "C", "U", "P"⟩

/-- An extraction stub returning empty sections. -/
def fxExtract : String → Sections := fun _ => ⟨"", "", ""⟩

/-- An HTTP stub always rate-limited. -/
def fxCallSkip : String → CallOutcome := fun _ => CallOutcome.response 429 "rate"

/-- An HTTP stub always failing with a server error. -/
def fxCallAbort : String → CallOutcome := fun _ => CallOutcome.response 500 "err"

/-- An HTTP stub always raising. -/
def fxCallExc : String → CallOutcome := fun _ => CallOutcome.exception "net"

/-- A language-detection stub accepting everything. -/
def fxEnglish : String → Bool := fun _ => true

/-- A model output whose JSON carries the same whitespace-padded item in
`cons` and `next_hot_topic`. -/
def fxText : String := "\x7b\"cons\": [\" X \"], \"next_hot_topic\": [\" X \"]\x7d"

/-- `json.loads` on `fxText` (and only on it): both keys hold the
one-element list `[" X "]`, `pros` is absent and defaults to `[]`. -/
def fxJsonParse : String → Option JsonSections := fun s =>
  if s = fxText then
    some ⟨StrOrList.list [], StrOrList.list [" X "], StrOrList.list [" X "]⟩
  else none

/-- A section-search stub (unused on the JSON path). -/
def fxSecSearch : String → Option String × Option String × Option String :=
  fun _ => (none, none, none)

/-- A bullet-findall stub (unused on the JSON path). -/
def fxFindBullets : String → List String := fun _ => []

end LlmAnalyzer

namespace CommentAnalyzer

/-! ## Concrete fixtures used by witnesses and counterexamples -/

namespace Fx

/-- A well-formed video descriptor. -/
def v0 : Video := ⟨"vid1", "Title", "Chan", "Url", "2024", 5⟩

/-- A well-formed comment dictionary. -/
def cd0 : CommentData := ⟨some "great stuff", some "alice", some 0, some 0⟩

/-- A comment dictionary with a missing `"text"` key: reading it raises
`KeyError` inside the per-video analysis. -/
def cdBad : CommentData := ⟨none, some "alice", some 0, some 0⟩

/-- A TextBlob stub that always fails (classification defaults to
neutral). -/
def pol0 : String → Option ℚ := fun _ => none

/-- A vectorizer stub that always raises. -/
def tfNone : List String → Option (List String) := fun _ => none

/-- A vectorizer stub ranking two fixed candidate terms. -/
def tf2 : List String → Option (List String) := fun _ => some ["alphaa", "betaa"]

/-- A `list(set(...))` order: first-occurrence order (one possible hash
seed). -/
def ord1 : List String → List String := fun xs => uniquePreserve xs

/-- Another `list(set(...))` order: reversed first-occurrence order
(another possible hash seed). -/
def ord2 : List String → List String := fun xs => (uniquePreserve xs).reverse

/-- A fetcher returning one good comment. -/
def fetchOk : Video → Except String (List CommentData) := fun _ => Except.ok [cd0]

/-- A fetcher returning one comment whose analysis raises. -/
def fetchBad : Video → Except String (List CommentData) := fun _ => Except.ok [cdBad]

/-- A fetcher that raises. -/
def fetchErr : Video → Except String (List CommentData) := fun _ => Except.error "boom boom"

end Fx

/-! ## Helper lemmas -/

theorem pyRound_abs (q : ℚ) : |(pyRound q : ℚ) - q| ≤ 1/2 := by
  have h0 : ((⌊q⌋ : ℤ) : ℚ) ≤ q := Int.floor_le q
  have h1 : q < (⌊q⌋ : ℚ) + 1 := Int.lt_floor_add_one q
  unfold pyRound
  split_ifs with hA hB hC
  · rw [abs_le]; constructor <;> linarith
  · rw [abs_le]; push_cast; constructor <;> linarith
  · rw [not_lt] at hA hB
    rw [abs_le]; constructor <;> linarith
  · rw [not_lt] at hA hB
    rw [abs_le]; push_cast; constructor <;> linarith

theorem round3_nonneg {q : ℚ} (h0 : 0 ≤ q) : 0 ≤ round3 q := by
  have habs := pyRound_abs (1000 * q)
  rw [abs_le] at habs
  have hk : (-1 : ℚ) < (pyRound (1000 * q) : ℚ) := by linarith
  have hk' : (-1 : ℤ) < pyRound (1000 * q) := by exact_mod_cast hk
  have : (0 : ℚ) ≤ (pyRound (1000 * q) : ℚ) := by
    have : (0 : ℤ) ≤ pyRound (1000 * q) := by omega
    exact_mod_cast this
  unfold round3
  positivity

theorem round3_le_one {q : ℚ} (h1 : q ≤ 1) : round3 q ≤ 1 := by
  have habs := pyRound_abs (1000 * q)
  rw [abs_le] at habs
  have hk : (pyRound (1000 * q) : ℚ) < 1001 := by linarith
  have hk' : pyRound (1000 * q) < (1001 : ℤ) := by exact_mod_cast hk
  have hle : (pyRound (1000 * q) : ℚ) ≤ 1000 := by
    have : pyRound (1000 * q) ≤ (1000 : ℤ) := by omega
    exact_mod_cast this
  unfold round3
  rw [div_le_one (by norm_num)]
  exact hle

/-- Rounding three fractions that sum to `1` to three decimals keeps the
sum within `1/1000` of `1`: the three per-component errors are at most
`1/2000` each, and the total error is an integer multiple of `1/1000`. -/
theorem sum_round3 (a b c : ℚ) (hsum : a + b + c = 1) :
    |round3 a + round3 b + round3 c - 1| ≤ 1/1000 := by
  set ka := pyRound (1000 * a) with hka
  set kb := pyRound (1000 * b) with hkb
  set kc := pyRound (1000 * c) with hkc
  have hKcast : ((ka + kb + kc - 1000 : ℤ) : ℚ) =
      ((ka : ℚ) - 1000 * a) + ((kb : ℚ) - 1000 * b) + ((kc : ℚ) - 1000 * c) := by
    push_cast
    linarith
  have htri : |((ka + kb + kc - 1000 : ℤ) : ℚ)| ≤ 3/2 := by
    rw [hKcast]
    calc |((ka : ℚ) - 1000 * a) + ((kb : ℚ) - 1000 * b) + ((kc : ℚ) - 1000 * c)|
        ≤ |((ka : ℚ) - 1000 * a) + ((kb : ℚ) - 1000 * b)| + |((kc : ℚ) - 1000 * c)| :=
          abs_add _ _
      _ ≤ |((ka : ℚ) - 1000 * a)| + |((kb : ℚ) - 1000 * b)| + |((kc : ℚ) - 1000 * c)| := by
          have := abs_add ((ka : ℚ) - 1000 * a) ((kb : ℚ) - 1000 * b)
          linarith
      _ ≤ 1/2 + 1/2 + 1/2 := by
          have h1 := pyRound_abs (1000 * a)
          have h2 := pyRound_abs (1000 * b)
          have h3 := pyRound_abs (1000 * c)
          rw [hka, hkb, hkc]
          linarith
      _ ≤ 3/2 := by norm_num
  have hint : |ka + kb + kc - 1000| ≤ (1 : ℤ) := by
    have h2 : |((ka + kb + kc - 1000 : ℤ) : ℚ)| < 2 := lt_of_le_of_lt htri (by norm_num)
    rw [← Int.cast_abs] at h2
    have : |ka + kb + kc - 1000| < (2 : ℤ) := by exact_mod_cast h2
    omega
  have hrepr : round3 a + round3 b + round3 c - 1 = ((ka + kb + kc - 1000 : ℤ) : ℚ) / 1000 := by
    unfold round3
    rw [← hka, ← hkb, ← hkc]
    push_cast
    ring
  rw [hrepr, abs_div]
  rw [abs_of_pos (by norm_num : (0:ℚ) < 1000)]
  rw [div_le_div_iff₀ (by norm_num) (by norm_num)]
  rw [← Int.cast_abs]
  have : ((|ka + kb + kc - 1000| : ℤ) : ℚ) ≤ 1 := by exact_mod_cast hint
  linarith

theorem count_three_labels (l : List String)
    (h : ∀ s ∈ l, s = "positive" ∨ s = "neutral" ∨ s = "negative") :
    l.count "positive" + l.count "neutral" + l.count "negative" = l.length := by
  induction l with
  | nil => simp
  | cons a t ih =>
    have ha := h a (by simp)
    have ht : ∀ s ∈ t, s = "positive" ∨ s = "neutral" ∨ s = "negative" :=
      fun s hs => h s (by simp [hs])
    have ihe := ih ht
    rcases ha with h1 | h1 | h1 <;> subst h1 <;>
      simp [List.count_cons] <;> omega


theorem length_filter_add_length_filter_not (p : α → Bool) (l : List α) :
    (l.filter p).length + (l.filter (fun a => !(p a))).length = l.length := by
  induction l with
  | nil => rfl
  | cons a t ih =>
    by_cases h : p a = true
    · simp [List.filter_cons, h, ← ih]; omega
    · have h' : p a = false := by revert h; cases p a <;> simp
      simp [List.filter_cons, h', ← ih]; omega

theorem extract_keywords_length_le (tfidf : List String → Option (List String))
    (texts : List String) : (extract_keywords tfidf texts).length ≤ 10 := by
  unfold extract_keywords
  split
  · simp
  · split
    · simp
    · split
      · simp
      · exact List.length_take_le ..

theorem analyze_video_comments_caps (polarity : String → Option ℚ)
    (tfidf : List String → Option (List String)) (v : Video) (comments : List CommentData) :
    (analyze_video_comments polarity tfidf v comments).topKeywords.length ≤ 10 ∧
    (analyze_video_comments polarity tfidf v comments).pros.length ≤ 5 ∧
    (analyze_video_comments polarity tfidf v comments).cons.length ≤ 5 ∧
    (analyze_video_comments polarity tfidf v comments).nextTopicIdeas.length ≤ 4 := by
  unfold analyze_video_comments
  cases h : analyzeBody polarity tfidf v comments with
  | error e => simp [create_empty_analysis]
  | ok a =>
    unfold analyzeBody at h
    by_cases hc : comments.isEmpty
    · rw [if_pos hc] at h
      have ha : create_empty_analysis v = a := by
        simpa using h
      subst ha
      simp [create_empty_analysis]
    · rw [if_neg hc] at h
      cases hm : comments.mapM (analyzeComment polarity) with
      | error e => rw [hm] at h; exact absurd h (by simp)
      | ok pairs =>
        rw [hm] at h
        simp only [Except.ok.injEq] at h
        subst h
        refine ⟨extract_keywords_length_le .., ?_, ?_, ?_⟩
        · exact List.length_take_le ..
        · exact List.length_take_le ..
        · unfold extract_next_topic_ideas
          exact List.length_take_le ..

theorem enhance_with_batch_metrics_fields (setOrder : List String → List String)
    (a : VideoAnalysis) (comments : List CommentData) :
    (enhance_with_batch_metrics setOrder a comments).commentCount = a.commentCount ∧
    (enhance_with_batch_metrics setOrder a comments).pros = a.pros ∧
    (enhance_with_batch_metrics setOrder a comments).cons = a.cons ∧
    (enhance_with_batch_metrics setOrder a comments).nextTopicIdeas = a.nextTopicIdeas ∧
    (enhance_with_batch_metrics setOrder a comments).comments = a.comments ∧
    (enhance_with_batch_metrics setOrder a comments).sentimentSummary = a.sentimentSummary := by
  unfold enhance_with_batch_metrics
  split <;> exact ⟨rfl, rfl, rfl, rfl, rfl, rfl⟩

theorem enhance_with_batch_metrics_top_le (setOrder : List String → List String)
    (a : VideoAnalysis) (comments : List CommentData)
    (h : a.topKeywords.length ≤ 10) :
    (enhance_with_batch_metrics setOrder a comments).topKeywords.length ≤ 10 := by
  unfold enhance_with_batch_metrics
  split
  · exact h
  · exact List.length_take_le ..

/-- Enhancement over a single comment with zero likes and zero replies
adds no engagement keyword. -/
theorem enhance_single_zero (setOrder : List String → List String)
    (a : VideoAnalysis) (cd : CommentData)
    (hl : cd.likeCount = some 0) (hr : cd.replyCount = some 0) :
    enhance_with_batch_metrics setOrder a [cd] =
      { a with topKeywords := (setOrder (a.topKeywords ++ [])).take 10 } := by
  unfold enhance_with_batch_metrics
  rw [if_neg (by simp)]
  have h1 : ¬((((([cd].map (fun c => c.likeCount.getD 0)).sum : ℤ) : ℚ) /
      (([cd].length : Nat) : ℚ)) > 10) := by
    simp [hl]
  have h2 : ¬((((([cd].map (fun c => c.replyCount.getD 0)).sum : ℤ) : ℚ) /
      (([cd].length : Nat) : ℚ)) > 2) := by
    simp [hr]
  have h3 : ¬(5 < ([cd].filter (fun c => c.likeCount.getD 0 > 50)).length) := by
    simp [hl]
  simp only [h1, if_false, h2, h3, if_neg, List.append_nil]

theorem eraseTop_enhance (setOrder : List String → List String)
    (a : VideoAnalysis) (comments : List CommentData) :
    { enhance_with_batch_metrics setOrder a comments with topKeywords := ([] : List String) } =
      { a with topKeywords := ([] : List String) } := by
  unfold enhance_with_batch_metrics
  split <;> rfl

/-! ## Claims -/

/-- C1: `analyze_videos_batch` returns exactly one `VideoAnalysis` per
attempted input video, in input order: a successfully fetched video yields
its (enhanced) analysis at its own index; a video whose processing raises
yields, at its own index, the error-variant analysis — commentCount 0,
neutral-only sentiment, a single keyword `"error: "` plus the message
truncated to 50 characters, all other lists empty — and the batch neither
aborts nor omits an entry (the output length always equals the input
length). -/
theorem batch_error_isolation_C1 (polarity : String → Option ℚ)
    (tfidf : List String → Option (List String)) (setOrder : List String → List String)
    (fetch : Video → Except String (List CommentData)) (videos : List Video) :
    (analyze_videos_batch polarity tfidf setOrder fetch videos).length = videos.length ∧
    (∀ (i : Nat) (v : Video), videos[i]? = some v →
      (∀ comments, fetch v = Except.ok comments →
        (analyze_videos_batch polarity tfidf setOrder fetch videos)[i]? =
          some (enhance_with_batch_metrics setOrder
            (analyze_video_comments polarity tfidf v comments) comments)) ∧
      (∀ e, fetch v = Except.error e →
        (analyze_videos_batch polarity tfidf setOrder fetch videos)[i]? =
          some (create_error_analysis v e) ∧
        (create_error_analysis v e).commentCount = 0 ∧
        (create_error_analysis v e).sentimentSummary = ⟨0, 1, 0⟩ ∧
        (create_error_analysis v e).topKeywords = ["error: " ++ pyTake e 50] ∧
        (create_error_analysis v e).pros = [] ∧
        (create_error_analysis v e).cons = [] ∧
        (create_error_analysis v e).nextTopicIdeas = [] ∧
        (create_error_analysis v e).comments = [])) := by
  constructor
  · unfold analyze_videos_batch
    exact List.length_map ..
  · intro i v hv
    constructor
    · intro comments hc
      unfold analyze_videos_batch
      rw [List.getElem?_map, hv]
      simp [hc]
    · intro e he
      refine ⟨?_, rfl, rfl, rfl, rfl, rfl, rfl, rfl⟩
      unfold analyze_videos_batch
      rw [List.getElem?_map, hv]
      simp [he]

/-- C1 witness: a one-video batch whose fetch raises `"boom boom"`. -/
theorem batch_error_isolation_C1_witness :
    (analyze_videos_batch Fx.pol0 Fx.tfNone Fx.ord1 Fx.fetchErr [Fx.v0]).length = 1 ∧
    (analyze_videos_batch Fx.pol0 Fx.tfNone Fx.ord1 Fx.fetchErr [Fx.v0])[0]? =
      some (create_error_analysis Fx.v0 "boom boom") := by
  have h := batch_error_isolation_C1 Fx.pol0 Fx.tfNone Fx.ord1 Fx.fetchErr [Fx.v0]
  exact ⟨h.1, ((h.2 0 Fx.v0 rfl).2 "boom boom" rfl).1⟩

/-- C2: every sentiment summary has its three components in `[0,1]` and
their sum within `1/1000` of `1` (each component is the label count over
the total, rounded to three decimals with Python's `round`), and the empty
list yields exactly `{positive := 0, neutral := 1, negative := 0}`.  The
hypothesis records that the inputs are classifier outputs, which are
always one of the three labels. -/
theorem sentiment_summary_C2 (sentiments : List String)
    (h : ∀ s ∈ sentiments, s = "positive" ∨ s = "neutral" ∨ s = "negative") :
    (0 ≤ (calculate_sentiment_summary sentiments).positive ∧
      (calculate_sentiment_summary sentiments).positive ≤ 1) ∧
    (0 ≤ (calculate_sentiment_summary sentiments).neutral ∧
      (calculate_sentiment_summary sentiments).neutral ≤ 1) ∧
    (0 ≤ (calculate_sentiment_summary sentiments).negative ∧
      (calculate_sentiment_summary sentiments).negative ≤ 1) ∧
    |(calculate_sentiment_summary sentiments).positive +
      (calculate_sentiment_summary sentiments).neutral +
      (calculate_sentiment_summary sentiments).negative - 1| ≤ 1/1000 ∧
    calculate_sentiment_summary [] = ⟨0, 1, 0⟩ := by
  by_cases hs : sentiments.isEmpty
  · have hnil : sentiments = [] := List.isEmpty_iff.mp hs
    subst hnil
    refine ⟨⟨?_, ?_⟩, ⟨?_, ?_⟩, ⟨?_, ?_⟩, ?_, rfl⟩ <;>
      · simp only [calculate_sentiment_summary, List.isEmpty_nil, if_true]
        norm_num
  · have hlen : 0 < sentiments.length :=
      List.length_pos.mpr (by simpa [List.isEmpty_iff] using hs)
    have htq : (0 : ℚ) < (sentiments.length : ℚ) := by exact_mod_cast hlen
    have hfrac : ∀ lab : String,
        0 ≤ ((sentiments.count lab : ℚ) / (sentiments.length : ℚ)) ∧
        ((sentiments.count lab : ℚ) / (sentiments.length : ℚ)) ≤ 1 := by
      intro lab
      constructor
      · positivity
      · rw [div_le_one htq]
        exact_mod_cast List.count_le_length ..
    have hcount := count_three_labels sentiments h
    have hsum : ((sentiments.count "positive" : ℚ) / (sentiments.length : ℚ)) +
        ((sentiments.count "neutral" : ℚ) / (sentiments.length : ℚ)) +
        ((sentiments.count "negative" : ℚ) / (sentiments.length : ℚ)) = 1 := by
      rw [div_add_div_same, div_add_div_same, div_eq_one_iff_eq (ne_of_gt htq)]
      exact_mod_cast hcount
    unfold calculate_sentiment_summary
    rw [if_neg hs]
    refine ⟨⟨round3_nonneg (hfrac "positive").1, round3_le_one (hfrac "positive").2⟩,
      ⟨round3_nonneg (hfrac "neutral").1, round3_le_one (hfrac "neutral").2⟩,
      ⟨round3_nonneg (hfrac "negative").1, round3_le_one (hfrac "negative").2⟩,
      sum_round3 _ _ _ hsum, rfl⟩

/-- C2 witness: the four-label input of the spec's own example. -/
theorem sentiment_summary_C2_witness :
    0 ≤ (calculate_sentiment_summary ["positive", "positive", "negative", "neutral"]).positive ∧
    (calculate_sentiment_summary ["positive", "positive", "negative", "neutral"]).positive ≤ 1 :=
  (sentiment_summary_C2 ["positive", "positive", "negative", "neutral"] (by decide)).1

/-- C3: every `VideoAnalysis` produced by the batch pipeline — full, empty
or error variant, after engagement-keyword enhancement — has at most 10
topKeywords, 5 pros, 5 cons and 4 nextTopicIdeas, for any input. -/
theorem output_caps_C3 (polarity : String → Option ℚ)
    (tfidf : List String → Option (List String)) (setOrder : List String → List String)
    (fetch : Video → Except String (List CommentData)) (videos : List Video)
    (a : VideoAnalysis) (ha : a ∈ analyze_videos_batch polarity tfidf setOrder fetch videos) :
    a.topKeywords.length ≤ 10 ∧ a.pros.length ≤ 5 ∧ a.cons.length ≤ 5 ∧
    a.nextTopicIdeas.length ≤ 4 := by
  unfold analyze_videos_batch at ha
  obtain ⟨v, hv, rfl⟩ := List.mem_map.mp ha
  cases hf : fetch v with
  | error e => simp [hf, create_error_analysis]
  | ok comments =>
    simp only [hf]
    have hA := analyze_video_comments_caps polarity tfidf v comments
    have hfields := enhance_with_batch_metrics_fields setOrder
      (analyze_video_comments polarity tfidf v comments) comments
    refine ⟨enhance_with_batch_metrics_top_le setOrder _ comments hA.1, ?_, ?_, ?_⟩
    · rw [hfields.2.1]; exact hA.2.1
    · rw [hfields.2.2.1]; exact hA.2.2.1
    · rw [hfields.2.2.2.1]; exact hA.2.2.2

/-- C3 witness: the error-variant entry of a one-video batch. -/
theorem output_caps_C3_witness :
    (create_error_analysis Fx.v0 "boom boom").topKeywords.length ≤ 10 ∧
    (create_error_analysis Fx.v0 "boom boom").pros.length ≤ 5 ∧
    (create_error_analysis Fx.v0 "boom boom").cons.length ≤ 5 ∧
    (create_error_analysis Fx.v0 "boom boom").nextTopicIdeas.length ≤ 4 :=
  output_caps_C3 Fx.pol0 Fx.tfNone Fx.ord1 Fx.fetchErr [Fx.v0]
    (create_error_analysis Fx.v0 "boom boom")
    (by exact List.mem_singleton.mpr rfl)

/-- C4: the sentiment classifier returns `"positive"` exactly when the
polarity exceeds `0.1`, `"negative"` exactly when it is below `-0.1`, and
`"neutral"` otherwise; when the polarity computation fails it returns
`"neutral"`.  The classifier is a total function into the three labels, so
it never propagates an exception to its caller. -/
theorem sentiment_classifier_C4 (polarity : String → Option ℚ) (text : String) :
    (∀ p, polarity text = some p →
      ((analyze_sentiment polarity text = "positive" ↔ 1/10 < p) ∧
       (analyze_sentiment polarity text = "negative" ↔ p < -(1/10)) ∧
       (analyze_sentiment polarity text = "neutral" ↔ -(1/10) ≤ p ∧ p ≤ 1/10))) ∧
    (polarity text = none → analyze_sentiment polarity text = "neutral") := by
  constructor
  · intro p hp
    have hval : analyze_sentiment polarity text =
        if p > 1/10 then "positive" else if p < -1/10 then "negative" else "neutral" := by
      unfold analyze_sentiment
      rw [hp]
    rw [hval]
    split_ifs with h1 h2
    · refine ⟨⟨fun _ => h1, fun _ => rfl⟩, ⟨?_, ?_⟩, ⟨?_, ?_⟩⟩
      · intro hh; exact absurd hh (by decide)
      · intro hh; exfalso; linarith
      · intro hh; exact absurd hh (by decide)
      · intro hh; exfalso; linarith [hh.2]
    · refine ⟨⟨?_, ?_⟩, ⟨fun _ => by linarith, fun _ => rfl⟩, ⟨?_, ?_⟩⟩
      · intro hh; exact absurd hh (by decide)
      · intro hh; exfalso; linarith
      · intro hh; exact absurd hh (by decide)
      · intro hh; exfalso; linarith [hh.1]
    · refine ⟨⟨?_, ?_⟩, ⟨?_, ?_⟩, ⟨fun _ => ⟨by linarith, by linarith⟩, fun _ => rfl⟩⟩
      · intro hh; exact absurd hh (by decide)
      · intro hh; exfalso; linarith
      · intro hh; exact absurd hh (by decide)
      · intro hh; exfalso; linarith
  · intro hn
    unfold analyze_sentiment
    rw [hn]

/-- C4 witness: a polarity of `1/2` and a failing polarity. -/
theorem sentiment_classifier_C4_witness :
    (analyze_sentiment (fun _ => some (1/2 : ℚ)) "hi" = "positive" ↔ (1/10 : ℚ) < 1/2) ∧
    analyze_sentiment Fx.pol0 "hi" = "neutral" :=
  ⟨((sentiment_classifier_C4 (fun _ => some (1/2 : ℚ)) "hi").1 (1/2) rfl).1,
   (sentiment_classifier_C4 Fx.pol0 "hi").2 rfl⟩

end CommentAnalyzer

namespace LlmAnalyzer

open CommentAnalyzer

theorem tryModels_all_fail (call : String → CallOutcome) (extract : String → Sections)
    (base : LLMResult) (models : List String)
    (h : ∀ m ∈ models, attemptFails call extract m = true) :
    tryModels call extract base models =
      { base with reason := some "LLM analysis failed for all models." } := by
  induction models with
  | nil => rfl
  | cons m rest ih =>
    have hm := h m (List.mem_cons_self ..)
    have hrest : ∀ x ∈ rest, attemptFails call extract x = true :=
      fun x hx => h x (List.mem_cons_of_mem _ hx)
    cases hc : call m with
    | exception e =>
      simp only [tryModels, hc]
      exact ih hrest
    | response s c =>
      unfold attemptFails at hm
      rw [hc] at hm
      simp only [Bool.or_eq_true, Bool.and_eq_true, bne_iff_ne, beq_iff_eq] at hm
      simp only [tryModels, hc]
      by_cases h200 : s = 200
      · subst h200
        rw [if_pos rfl]
        rcases hm with ((h | h) | h) | ⟨⟨hp, hcn⟩, hn⟩
        · exact absurd rfl h
        · rw [if_pos (Or.inl h)]
          exact ih hrest
        · rw [if_pos (Or.inr h)]
          exact ih hrest
        · by_cases hec : c = "" ∨ pyStrip c = ""
          · rw [if_pos hec]
            exact ih hrest
          · rw [if_neg hec, if_pos ⟨hp, hcn, hn⟩]
            exact ih hrest
      · rw [if_neg h200]
        by_cases h43 : s = 429 ∨ s = 403
        · rw [if_pos h43]
          exact ih hrest
        · rw [if_neg h43]

/-- C5: the LLM fallback chain tries the candidate models one at a time in
list order: a 429 or 403 response moves on to the next model (first
conjunct); any other non-200 response returns the total-failure record at
once, whatever the remaining models would have answered (second conjunct);
a raised call moves on to the next model (third conjunct); and when every
model attempt fails, `analyze_video_comments` returns its base response —
whose `pros`, `cons` and `next_hot_topic` are the empty string — with the
failure reason set (fourth conjunct).  The chain is a total function, so it
never propagates an exception to its caller. -/
theorem llm_chain_C5 :
    (∀ (call : String → CallOutcome) (extract : String → Sections) (base : LLMResult)
        (m : String) (rest : List String) (s : Nat) (c : String),
      call m = CallOutcome.response s c → (s = 429 ∨ s = 403) →
        tryModels call extract base (m :: rest) = tryModels call extract base rest) ∧
    (∀ (call : String → CallOutcome) (extract : String → Sections) (base : LLMResult)
        (m : String) (rest : List String) (s : Nat) (c : String),
      call m = CallOutcome.response s c → s ≠ 200 → s ≠ 429 → s ≠ 403 →
        tryModels call extract base (m :: rest) =
          { base with reason := some "LLM analysis failed for all models." }) ∧
    (∀ (call : String → CallOutcome) (extract : String → Sections) (base : LLMResult)
        (m : String) (rest : List String) (e : String),
      call m = CallOutcome.exception e →
        tryModels call extract base (m :: rest) = tryModels call extract base rest) ∧
    (∀ (call : String → String → CallOutcome) (extract : String → Sections)
        (isEnglish : String → Bool) (video : LLMVideo) (comments : List String),
      sanitizeComments isEnglish comments ≠ [] →
      (∀ m ∈ openrouter_models,
        attemptFails (fun mo => call mo (build_prompt video (sanitizeComments isEnglish comments)))
          extract m = true) →
      analyze_video_comments call extract isEnglish video comments =
        { baseResponse video comments.length (sanitizeComments isEnglish comments).length with
            reason := some "LLM analysis failed for all models." } ∧
      (baseResponse video comments.length (sanitizeComments isEnglish comments).length).pros = "" ∧
      (baseResponse video comments.length (sanitizeComments isEnglish comments).length).cons = "" ∧
      (baseResponse video comments.length
        (sanitizeComments isEnglish comments).length).next_hot_topic = "") := by
  refine ⟨?_, ?_, ?_, ?_⟩
  · intro call extract base m rest s c hc h43
    have h200 : ¬(s = 200) := by rcases h43 with rfl | rfl <;> decide
    simp only [tryModels, hc]
    rw [if_neg h200, if_pos h43]
  · intro call extract base m rest s c hc h200 h429 h403
    simp only [tryModels, hc]
    rw [if_neg h200, if_neg (by rintro (rfl | rfl) <;> [exact h429 rfl; exact h403 rfl])]
  · intro call extract base m rest e hc
    simp only [tryModels, hc]
  · intro call extract isEnglish video comments hne hfail
    refine ⟨?_, rfl, rfl, rfl⟩
    simp only [analyze_video_comments]
    rw [if_neg (by simpa [List.isEmpty_iff] using hne)]
    exact tryModels_all_fail _ extract _ openrouter_models hfail

/-- C5 witness: a 429 stub skips to the next model; a 500 stub returns the
total-failure record immediately; an exception stub skips; an
always-raising chain on one real comment returns the empty-fields record
with the failure reason. -/
theorem llm_chain_C5_witness :
    (tryModels fxCallSkip fxExtract (baseResponse fxVid 1 1) ("a" :: ["b"]) =
      tryModels fxCallSkip fxExtract (baseResponse fxVid 1 1) ["b"]) ∧
    (tryModels fxCallAbort fxExtract (baseResponse fxVid 1 1) ("a" :: ["b"]) =
      { baseResponse fxVid 1 1 with reason := some "LLM analysis failed for all models." }) ∧
    (tryModels fxCallExc fxExtract (baseResponse fxVid 1 1) ("a" :: ["b"]) =
      tryModels fxCallExc fxExtract (baseResponse fxVid 1 1) ["b"]) ∧
    analyze_video_comments (fun _ _ => CallOutcome.exception "net") fxExtract fxEnglish fxVid
        ["hello world"] =
      { baseResponse fxVid 1 1 with reason := some "LLM analysis failed for all models." } := by
  refine ⟨?_, ?_, ?_, ?_⟩
  · exact llm_chain_C5.1 fxCallSkip fxExtract (baseResponse fxVid 1 1) "a" ["b"] 429 "rate"
      rfl (Or.inl rfl)
  · exact llm_chain_C5.2.1 fxCallAbort fxExtract (baseResponse fxVid 1 1) "a" ["b"] 500 "err"
      rfl (by decide) (by decide) (by decide)
  · exact llm_chain_C5.2.2.1 fxCallExc fxExtract (baseResponse fxVid 1 1) "a" ["b"] "net" rfl
  · exact (llm_chain_C5.2.2.2 (fun _ _ => CallOutcome.exception "net") fxExtract fxEnglish fxVid
      ["hello world"] (by decide) (fun m _ => rfl)).1

/-- C6 counterexample: on the JSON path, the model output
`{"cons": [" X "], "next_hot_topic": [" X "]}` survives the overlap filter
(the filter compares the *stripped* cons item `"X"` against the
*unstripped* next items, and `"X" ≠ " X "`), so the identical
newline-separated item `" X "` appears in both output fields — the claimed
mutual exclusion fails. -/
theorem cons_next_overlap_C6_counterexample :
    " X " ∈ splitNL (extract_sections_from_text fxJsonParse fxSecSearch fxFindBullets fxText).cons ∧
    " X " ∈ splitNL
      (extract_sections_from_text fxJsonParse fxSecSearch fxFindBullets fxText).next_hot_topic := by
  constructor <;> decide

/-- C6 amended: the overlap removal guarantees only that every retained
cons item has, on the JSON path, a non-empty *stripped* form that differs
from every (unstripped) next-topic item, and, on the regex path, is
non-empty and differs verbatim from every next-topic item; identical
strings can still appear on both sides of the final newline-joined fields
when an item carries surrounding whitespace or embedded newlines. -/
theorem cons_next_overlap_C6_amended (cons next : List String) (c : String) :
    (c ∈ json_cons_clean cons next → pyStrip c ≠ "" ∧ pyStrip c ∉ next) ∧
    (c ∈ regex_cons_clean cons next → c ≠ "" ∧ c ∉ next) := by
  constructor
  · intro hc
    have h := (List.mem_filter.mp hc).2
    simpa using h
  · intro hc
    have h := (List.mem_filter.mp hc).2
    simpa using h

/-- C6 amended witness: the retained item `"X"` of a concrete extraction. -/
theorem cons_next_overlap_C6_amended_witness :
    (pyStrip "X" ≠ "" ∧ pyStrip "X" ∉ ["Y"]) ∧ ("X" ≠ "" ∧ "X" ∉ ["Y"]) :=
  ⟨(cons_next_overlap_C6_amended ["X"] ["Y"] "X").1 (by decide),
   (cons_next_overlap_C6_amended ["X"] ["Y"] "X").2 (by decide)⟩

end LlmAnalyzer

namespace CommentAnalyzer

theorem mem_if_singleton {k s : String} {P : Prop} [Decidable P]
    (h : k ∈ (if P then [s] else [])) : k = s := by
  split_ifs at h with hp
  · exact List.mem_singleton.mp h
  · exact absurd h (List.not_mem_nil k)

/-- C7 counterexample: a fetched comment dictionary without a `"text"` key
makes the per-video analysis raise after a successful fetch, but the batch
entry it produces is the *empty* variant — no keyword at all — not the
claimed error variant with its single `"error: ..."` keyword
(`analyze_video_comments` swallows the failure and returns
`_create_empty_analysis`, so the batch-level error handler never runs). -/
theorem analysis_failure_C7_counterexample :
    analyze_videos_batch Fx.pol0 Fx.tfNone Fx.ord1 Fx.fetchBad [Fx.v0] =
      [create_empty_analysis Fx.v0] ∧
    (create_empty_analysis Fx.v0).topKeywords = [] ∧
    (create_error_analysis Fx.v0 "KeyError: text").topKeywords ≠ [] := by
  refine ⟨?_, rfl, by decide⟩
  have h1 : analyze_videos_batch Fx.pol0 Fx.tfNone Fx.ord1 Fx.fetchBad [Fx.v0] =
      [enhance_with_batch_metrics Fx.ord1 (create_empty_analysis Fx.v0) [Fx.cdBad]] := rfl
  rw [h1, enhance_single_zero Fx.ord1 _ Fx.cdBad rfl rfl]
  rfl

/-- C7 amended: when the per-video analysis step fails internally after a
successful fetch, `analyze_video_comments` catches the failure itself and
returns the *empty*-variant analysis (commentCount 0, neutral-only
sentiment, all lists empty, no error keyword); the batch then applies the
engagement enhancement — so the entry's keywords can only be engagement
tags, never an error keyword — and continues with the full output length.
The error variant arises only for exceptions that escape to the batch loop
(e.g. a failing fetch). -/
theorem analysis_failure_C7_amended (polarity : String → Option ℚ)
    (tfidf : List String → Option (List String)) (setOrder : List String → List String)
    (fetch : Video → Except String (List CommentData)) (videos : List Video)
    (hso : ∀ xs a, a ∈ setOrder xs → a ∈ xs)
    (i : Nat) (v : Video) (comments : List CommentData) (e : String)
    (hv : videos[i]? = some v) (hf : fetch v = Except.ok comments)
    (hfail : analyzeBody polarity tfidf v comments = Except.error e) :
    (analyze_videos_batch polarity tfidf setOrder fetch videos)[i]? =
      some (enhance_with_batch_metrics setOrder (create_empty_analysis v) comments) ∧
    (enhance_with_batch_metrics setOrder (create_empty_analysis v) comments).commentCount = 0 ∧
    (enhance_with_batch_metrics setOrder (create_empty_analysis v) comments).pros = [] ∧
    (enhance_with_batch_metrics setOrder (create_empty_analysis v) comments).cons = [] ∧
    (enhance_with_batch_metrics setOrder (create_empty_analysis v) comments).nextTopicIdeas = [] ∧
    (enhance_with_batch_metrics setOrder (create_empty_analysis v) comments).comments = [] ∧
    (enhance_with_batch_metrics setOrder (create_empty_analysis v) comments).sentimentSummary =
      ⟨0, 1, 0⟩ ∧
    (∀ k ∈ (enhance_with_batch_metrics setOrder (create_empty_analysis v) comments).topKeywords,
      k = "high engagement" ∨ k = "active discussion" ∨ k = "viral comments") ∧
    (analyze_videos_batch polarity tfidf setOrder fetch videos).length = videos.length := by
  have hana : analyze_video_comments polarity tfidf v comments = create_empty_analysis v := by
    unfold analyze_video_comments
    rw [hfail]
  have hfields := enhance_with_batch_metrics_fields setOrder (create_empty_analysis v) comments
  refine ⟨?_, hfields.1.trans rfl, hfields.2.1.trans rfl, hfields.2.2.1.trans rfl,
    hfields.2.2.2.1.trans rfl, hfields.2.2.2.2.1.trans rfl, hfields.2.2.2.2.2.trans rfl,
    ?_, ?_⟩
  · unfold analyze_videos_batch
    rw [List.getElem?_map, hv]
    simp [hf, hana]
  · intro k hk
    unfold enhance_with_batch_metrics at hk
    by_cases hne : comments.isEmpty
    · rw [if_pos hne] at hk
      exact absurd hk (by simp [create_empty_analysis])
    · rw [if_neg hne] at hk
      have h1 := hso _ _ (List.mem_of_mem_take hk)
      have h2 : (create_empty_analysis v).topKeywords = [] := rfl
      rw [h2, List.nil_append] at h1
      rcases List.mem_append.mp h1 with h | h
      · rcases List.mem_append.mp h with h | h
        · exact Or.inl (mem_if_singleton h)
        · exact Or.inr (Or.inl (mem_if_singleton h))
      · exact Or.inr (Or.inr (mem_if_singleton h))
  · unfold analyze_videos_batch
    exact List.length_map ..

/-- C7 amended witness: the missing-text fixture with the identity set
order. -/
theorem analysis_failure_C7_amended_witness :
    (analyze_videos_batch Fx.pol0 Fx.tfNone (fun xs => xs) Fx.fetchBad [Fx.v0])[0]? =
      some (enhance_with_batch_metrics (fun xs => xs) (create_empty_analysis Fx.v0) [Fx.cdBad]) ∧
    (enhance_with_batch_metrics (fun xs => xs) (create_empty_analysis Fx.v0)
      [Fx.cdBad]).commentCount = 0 := by
  have h := analysis_failure_C7_amended Fx.pol0 Fx.tfNone (fun xs => xs) Fx.fetchBad [Fx.v0]
    (fun xs a ha => ha) 0 Fx.v0 [Fx.cdBad] "KeyError: text" rfl rfl rfl
  exact ⟨h.1, h.2.1⟩

/-- C8 counterexample: on a batch whose single entry is an error variant
(commentCount 0, one error keyword), the streaming endpoint's final
aggregate reports 0 successful / 1 failed, while the claimed derivation
rule (commentCount > 0 or a keyword) counts it successful, as the
synchronous endpoint does (1 successful / 0 failed) — so the rule does not
hold for the streaming endpoint. -/
theorem success_counts_C8_counterexample :
    (stream_final_response [create_error_analysis Fx.v0 "boom"]).successful_analyses = 0 ∧
    (stream_final_response [create_error_analysis Fx.v0 "boom"]).failed_analyses = 1 ∧
    (analyze_youtube_comments_response [create_error_analysis Fx.v0 "boom"]
      0).successful_analyses = 1 ∧
    (analyze_youtube_comments_response [create_error_analysis Fx.v0 "boom"]
      0).failed_analyses = 0 :=
  ⟨rfl, rfl, rfl, rfl⟩

/-- C8 amended: the synchronous endpoint derives `successful_analyses` as
the number of entries with comments or at least one keyword and
`failed_analyses` as the number of remaining entries; the streaming
endpoint's final aggregate instead counts an entry successful exactly when
`commentCount > 0`, ignoring keywords, with `failed_analyses` the number of
zero-comment entries. -/
theorem success_counts_C8_amended (results : List VideoAnalysis) (t : ℚ) :
    (analyze_youtube_comments_response results t).total_processed = results.length ∧
    (analyze_youtube_comments_response results t).successful_analyses =
      (results.filter (fun r => (0 < r.commentCount) || (0 < r.topKeywords.length))).length ∧
    (analyze_youtube_comments_response results t).failed_analyses =
      (results.filter (fun r => !((0 < r.commentCount) || (0 < r.topKeywords.length)))).length ∧
    (stream_final_response results).total_processed = results.length ∧
    (stream_final_response results).successful_analyses =
      (results.filter (fun r => (0 < r.commentCount : Bool))).length ∧
    (stream_final_response results).failed_analyses =
      (results.filter (fun r => !(0 < r.commentCount : Bool))).length := by
  have h1 := length_filter_add_length_filter_not syncSuccess results
  have h2 := length_filter_add_length_filter_not streamSuccess results
  refine ⟨rfl, rfl, ?_, rfl, rfl, ?_⟩
  · show results.length - (results.filter syncSuccess).length =
      (results.filter (fun r => !(syncSuccess r))).length
    omega
  · show results.length - (results.filter streamSuccess).length =
      (results.filter (fun r => !(streamSuccess r))).length
    omega

/-- C9 counterexample: two valid `list(set(...))` iteration orders — both
deduplicating permutations of the same two-keyword input, as two interpreter
hash seeds would produce — yield batch outputs whose topKeywords order
differs on the same videos, comment fixture, polarity and vectorizer, so
re-running the pipeline is not guaranteed to reproduce the topKeywords
order. -/
theorem determinism_C9_counterexample :
    ((analyze_videos_batch Fx.pol0 Fx.tf2 Fx.ord1 Fx.fetchOk [Fx.v0])[0]?).map
        (fun a => a.topKeywords) = some ["alphaa", "betaa"] ∧
    ((analyze_videos_batch Fx.pol0 Fx.tf2 Fx.ord2 Fx.fetchOk [Fx.v0])[0]?).map
        (fun a => a.topKeywords) = some ["betaa", "alphaa"] ∧
    Fx.ord1 ["alphaa", "betaa"] = ["alphaa", "betaa"] ∧
    (Fx.ord1 ["alphaa", "betaa"]).Nodup ∧
    Fx.ord2 ["alphaa", "betaa"] = ["betaa", "alphaa"] ∧
    (Fx.ord2 ["alphaa", "betaa"]).Nodup ∧
    (["alphaa", "betaa"] : List String) ≠ ["betaa", "alphaa"] := by
  refine ⟨?_, ?_, by decide, by decide, by decide, by decide, by decide⟩
  · have h1 : analyze_videos_batch Fx.pol0 Fx.tf2 Fx.ord1 Fx.fetchOk [Fx.v0] =
        [enhance_with_batch_metrics Fx.ord1
          (analyze_video_comments Fx.pol0 Fx.tf2 Fx.v0 [Fx.cd0]) [Fx.cd0]] := rfl
    rw [h1, enhance_single_zero Fx.ord1 _ Fx.cd0 rfl rfl]
    decide
  · have h1 : analyze_videos_batch Fx.pol0 Fx.tf2 Fx.ord2 Fx.fetchOk [Fx.v0] =
        [enhance_with_batch_metrics Fx.ord2
          (analyze_video_comments Fx.pol0 Fx.tf2 Fx.v0 [Fx.cd0]) [Fx.cd0]] := rfl
    rw [h1, enhance_single_zero Fx.ord2 _ Fx.cd0 rfl rfl]
    decide

/-- C9 amended: with the set-iteration order held fixed, the pipeline is a
pure function of its inputs, and the clock affects only
`processing_time_seconds`; across two runs whose set-iteration orders
differ (different hash seeds), every field of every entry except
`topKeywords` is identical, and the output length is unchanged. -/
theorem determinism_C9_amended (polarity : String → Option ℚ)
    (tfidf : List String → Option (List String))
    (fetch : Video → Except String (List CommentData)) (videos : List Video)
    (o1 o2 : List String → List String) (i : Nat)
    (results : List VideoAnalysis) (t1 t2 : ℚ) :
    ((analyze_videos_batch polarity tfidf o1 fetch videos)[i]?).map
        (fun a => { a with topKeywords := ([] : List String) }) =
      ((analyze_videos_batch polarity tfidf o2 fetch videos)[i]?).map
        (fun a => { a with topKeywords := ([] : List String) }) ∧
    (analyze_videos_batch polarity tfidf o1 fetch videos).length =
      (analyze_videos_batch polarity tfidf o2 fetch videos).length ∧
    (analyze_youtube_comments_response results t1).videos =
      (analyze_youtube_comments_response results t2).videos ∧
    (analyze_youtube_comments_response results t1).total_processed =
      (analyze_youtube_comments_response results t2).total_processed ∧
    (analyze_youtube_comments_response results t1).successful_analyses =
      (analyze_youtube_comments_response results t2).successful_analyses ∧
    (analyze_youtube_comments_response results t1).failed_analyses =
      (analyze_youtube_comments_response results t2).failed_analyses := by
  refine ⟨?_, ?_, rfl, rfl, rfl, rfl⟩
  · unfold analyze_videos_batch
    rw [List.getElem?_map, List.getElem?_map, Option.map_map, Option.map_map]
    have hfe : ((fun a : VideoAnalysis => { a with topKeywords := ([] : List String) }) ∘
        fun video => match fetch video with
          | Except.error e => create_error_analysis video e
          | Except.ok comments =>
            enhance_with_batch_metrics o1
              (analyze_video_comments polarity tfidf video comments) comments) =
        ((fun a : VideoAnalysis => { a with topKeywords := ([] : List String) }) ∘
        fun video => match fetch video with
          | Except.error e => create_error_analysis video e
          | Except.ok comments =>
            enhance_with_batch_metrics o2
              (analyze_video_comments polarity tfidf video comments) comments) := by
      funext v
      simp only [Function.comp]
      cases hf : fetch v with
      | error e => simp only [hf]
      | ok comments =>
        simp only [hf]
        rw [eraseTop_enhance, eraseTop_enhance]
    rw [hfe]
  · unfold analyze_videos_batch
    rw [List.length_map, List.length_map]

/-- C10: every error-variant analysis carries exactly one keyword,
`"error: "` followed by the message truncated to 50 characters, so it
passes the synchronous endpoint's success test (commentCount > 0 or a
keyword); consequently the synchronous `failed_analyses` counts exactly the
entries with zero comments and zero keywords (the empty variant), never an
error variant. -/
theorem error_variant_success_C10 (v : Video) (msg : String)
    (results : List VideoAnalysis) (t : ℚ) :
    (create_error_analysis v msg).topKeywords = ["error: " ++ pyTake msg 50] ∧
    (create_error_analysis v msg).topKeywords.length = 1 ∧
    syncSuccess (create_error_analysis v msg) = true ∧
    (analyze_youtube_comments_response results t).successful_analyses =
      (results.filter (fun r => (0 < r.commentCount) || (0 < r.topKeywords.length))).length ∧
    (analyze_youtube_comments_response results t).failed_analyses =
      (results.filter (fun r => r.commentCount = 0 && r.topKeywords.isEmpty)).length := by
  refine ⟨rfl, rfl, rfl, rfl, ?_⟩
  have h1 := length_filter_add_length_filter_not syncSuccess results
  have h2 : results.filter (fun r => !(syncSuccess r)) =
      results.filter (fun r => r.commentCount = 0 && r.topKeywords.isEmpty) := by
    apply List.filter_congr
    intro r _
    unfold syncSuccess
    cases hc : r.commentCount <;> cases hk : r.topKeywords <;> simp [List.isEmpty]
  show results.length - (results.filter syncSuccess).length =
    (results.filter (fun r => r.commentCount = 0 && r.topKeywords.isEmpty)).length
  rw [← h2]
  omega

end CommentAnalyzer
